import Mathlib

/-!
Verification of the resilient real-time transport layer of the
R-D Team Collaboration Platform frontend.

The development shallowly embeds the two source modules the claims are about:

* `src/frontend/src/utils/websocket.ts` — class `WebSocketClient`
  (namespace `WsClient` below): connection lifecycle, heartbeat,
  reconnection with linear backoff, outbound message queue.
* `src/frontend/src/services/realtimeService.ts` — class `RealtimeService`
  (namespace `Realtime` below): event dispatch with per-subscriber
  try/catch, frame normalization, its own reconnect scheduling.

Conventions of the embedding:

* JavaScript values that flow through `send` / `onmessage` are modelled by
  `JVal`, with JS truthiness (`flushMessageQueue` tests `if (message)`).
* Mutations of `this` become pure functions on an explicit state record.
* `setTimeout` / `setInterval` handles become state fields; a timer whose
  handle is retained and clearable is a `Bool` flag, while the reconnect
  `setTimeout` in `WebSocketClient.reconnect`, whose handle is NOT retained
  by the source, is modelled as a count `pendingReconnects` of scheduled
  callbacks that no operation can cancel.  The environment firing a timer
  or delivering a socket event is a separate step function (`deliverOpen`,
  `deliverClose`, `deliverMessage`, `reconnectFire`, ...).
* `emit` to listeners is recorded in an `emitted` log of event labels; the
  labels are the closed set of event names the source ever passes to
  `this.emit`.
* `ws.send` can throw in JS; the Boolean parameter `ok` of `send` says
  whether the underlying transmission succeeds.  A successful transmission
  appends the frame to the socket's `sent` list.
-/

namespace WsClient

/-- JavaScript values as they appear in the client: `null`, booleans,
numbers, strings, and JSON objects given by their field list. -/
inductive JVal where
  | jnull
  | jbool (b : Bool)
  | jnum (n : Int)
  | jstr (s : String)
  | jobj (fields : List (String × JVal))

/-- JS truthiness, as tested by `if (message)` in `flushMessageQueue`. -/
def jsTruthy : JVal → Bool
  | JVal.jnull => false
  | JVal.jbool b => b
  | JVal.jnum n => n != 0
  | JVal.jstr s => s != ""
  | JVal.jobj _ => true

/-- Field access `v.k` on an object, `none` otherwise. -/
def getField (v : JVal) (k : String) : Option JVal :=
  match v with
  | JVal.jobj fs => List.lookup k fs
  | _ => none

/-- The string value of `data.type`, if `data` has a string `type` field;
a non-string `type` hits the `default` branch of every `switch` in the
source, which `none` maps to. -/
def typeStr (v : JVal) : Option String :=
  match getField v "type" with
  | some (JVal.jstr s) => some s
  | _ => none

/-- Readiness of the underlying `WebSocket` object, mirroring the
`WebSocket.CONNECTING/OPEN/CLOSING/CLOSED` constants. -/
inductive ReadyState where
  | CONNECTING
  | OPEN
  | CLOSING
  | CLOSED
  deriving DecidableEq

/-- One underlying `WebSocket` object: its ready state and the frames its
`send` method has handed to the transport, in order. -/
structure Sock where
  readyState : ReadyState
  sent : List JVal

/-- Event labels `WebSocketClient.emit` is called with in the source:
`connected`, `disconnected`, `message`, `error`, `max_reconnect_reached`. -/
inductive WEv where
  | connected
  | disconnected
  | messageEv
  | errorEv
  | maxReconnectReached
  deriving DecidableEq, BEq

/-- State of a `WebSocketClient` instance: the fields of the class.
`pendingReconnects` counts reconnect callbacks scheduled by `reconnect`
via `setTimeout`; the source retains no handle to these, so no operation
of the class can cancel them. -/
structure State where
  ws : Option Sock
  reconnectAttempts : Nat
  heartbeatTimer : Bool
  connectionTimer : Bool
  messageQueue : List JVal
  isConnecting : Bool
  pendingReconnects : Nat
  emitted : List WEv

/-- Initial field values of a freshly constructed `WebSocketClient`. -/
def initState : State :=
  { ws := none
    reconnectAttempts := 0
    heartbeatTimer := false
    connectionTimer := false
    messageQueue := []
    isConnecting := false
    pendingReconnects := 0
    emitted := [] }

/-- Constant `maxReconnectAttempts = 10` of the source. -/
def maxReconnectAttempts : Nat := 10

/-- Record a call `this.emit(e, ...)`. -/
def emitEv (st : State) (e : WEv) : State :=
  { st with emitted := st.emitted ++ [e] }

/-- Method `isConnected()`: `this.ws?.readyState === WebSocket.OPEN`. -/
def isConnected (st : State) : Bool :=
  match st.ws with
  | some w => w.readyState = ReadyState.OPEN
  | none => false

/-- Set the ready state of a socket. -/
def sockSetState (rs : ReadyState) (w : Sock) : Sock :=
  { w with readyState := rs }

/-- Effect of `this.ws.send(JSON.stringify(data))` succeeding: the frame is
handed to the transport. -/
def wsSendFrame (st : State) (d : JVal) : State :=
  { st with ws := st.ws.map (fun w => { w with sent := w.sent ++ [d] }) }

/-- Method `send(data)` with transmission outcome `ok`; returns the updated
state and the JS return value.  If the socket is OPEN it transmits (`true`)
or, when `ws.send` throws, emits `error` and returns `false`; otherwise it
pushes the message on `messageQueue` and returns `false`. -/
def send (st : State) (d : JVal) (ok : Bool) : State × Bool :=
  if isConnected st then
    if ok then (wsSendFrame st d, true)
    else (emitEv st WEv.errorEv, false)
  else
    ({ st with messageQueue := st.messageQueue ++ [d] }, false)

/-- Method `clearConnectionTimer()`. -/
def clearConnectionTimer (st : State) : State :=
  { st with connectionTimer := false }

/-- Method `clearHeartbeat()`. -/
def clearHeartbeat (st : State) : State :=
  { st with heartbeatTimer := false }

/-- Method `startHeartbeat()`: clears any previous interval and installs a
new one. -/
def startHeartbeat (st : State) : State :=
  { clearHeartbeat st with heartbeatTimer := true }

/-- The ping frame the heartbeat sends at time `now`. -/
def pingFrame (now : Int) : JVal :=
  JVal.jobj [("type", JVal.jstr "ping"), ("timestamp", JVal.jnum now)]

/-- One firing of the heartbeat interval installed by `startHeartbeat`:
when connected, send a ping (with transmission outcome `ok`); otherwise
clear the interval. -/
def heartbeatTick (now : Int) (ok : Bool) (st : State) : State :=
  if isConnected st then (send st (pingFrame now) ok).1
  else clearHeartbeat st

/-- One iteration of the `while` loop of `flushMessageQueue`: shift the
head of the queue and, if it is truthy, `send` it. -/
def flushIter (ok : Bool) (st : State) : State :=
  match st.messageQueue with
  | [] => st
  | m :: rest =>
      let st1 := { st with messageQueue := rest }
      if jsTruthy m then (send st1 m ok).1 else st1

/-- Method `flushMessageQueue()` as a fuel-indexed loop: `none` means the
fuel ran out with the queue still non-empty (the JS loop has not
terminated within `fuel` iterations). -/
def flushMessageQueue (ok : Bool) : Nat → State → Option State
  | 0, st => if st.messageQueue.isEmpty then some st else none
  | fuel + 1, st =>
      if st.messageQueue.isEmpty then some st
      else flushMessageQueue ok fuel (flushIter ok st)

/-- Method `reconnect()`: below the attempt cap, increment the counter and
schedule a retry via `setTimeout` (handle not retained); at the cap, emit
`max_reconnect_reached`. -/
def reconnect (st : State) : State :=
  if st.reconnectAttempts < maxReconnectAttempts then
    { st with reconnectAttempts := st.reconnectAttempts + 1
              pendingReconnects := st.pendingReconnects + 1 }
  else
    emitEv st WEv.maxReconnectReached

/-- Method `connect()`: no-op when already connecting or connected;
otherwise create a fresh socket in CONNECTING state and start the
connection-establishment timer. -/
def connect (st : State) : State :=
  if st.isConnecting || isConnected st then st
  else
    { st with isConnecting := true
              ws := some { readyState := ReadyState.CONNECTING, sent := [] }
              connectionTimer := true }

/-- A reconnect callback scheduled by `reconnect` fires: the closure calls
`this.connect()` unconditionally. -/
def reconnectFire (st : State) : State :=
  if st.pendingReconnects > 0 then
    connect { st with pendingReconnects := st.pendingReconnects - 1 }
  else st

/-- Method `disconnect()`: clear the connection and heartbeat timers, close
the socket with code 1000 and drop the reference, clear the queue, reset
`isConnecting`.  Nothing touches `pendingReconnects`: the source holds no
handle to reconnect callbacks. -/
def disconnect (st : State) : State :=
  let st1 := clearConnectionTimer st
  let st2 := clearHeartbeat st1
  let st3 :=
    match st2.ws with
    | some _ => { st2 with ws := none }
    | none => st2
  { st3 with messageQueue := [], isConnecting := false }

/-- The socket reaches OPEN and the `onopen` handler runs: reset
`isConnecting` and the attempt counter, clear the connection timer, start
the heartbeat, flush the queue, emit `connected`.  The flush is run with
fuel equal to the queue length, which suffices while the socket is OPEN
(`flushMessageQueue_connected` below); the fallback branch is
unreachable in that case. -/
def deliverOpen (st : State) : State :=
  let st1 := { st with ws := st.ws.map (sockSetState ReadyState.OPEN) }
  let st2 := { st1 with isConnecting := false, reconnectAttempts := 0 }
  let st3 := clearConnectionTimer st2
  let st4 := startHeartbeat st3
  let st5 :=
    match flushMessageQueue true st4.messageQueue.length st4 with
    | some s => s
    | none => st4
  emitEv st5 WEv.connected

/-- The part of the `onclose` handler before the closure-code check: the
socket is now CLOSED, `isConnecting` is reset, both retained timers are
cleared, `disconnected` is emitted. -/
def closeHandlerPre (st : State) : State :=
  let st1 := { st with ws := st.ws.map (sockSetState ReadyState.CLOSED) }
  let st2 := { st1 with isConnecting := false }
  let st3 := clearConnectionTimer st2
  let st4 := clearHeartbeat st3
  emitEv st4 WEv.disconnected

/-- The `onclose` handler with closure code `code`: after
`closeHandlerPre`, reconnect only on an abnormal code (`code !== 1000`). -/
def deliverClose (code : Nat) (st : State) : State :=
  let st1 := closeHandlerPre st
  if code ≠ 1000 then reconnect st1 else st1

/-- The `onmessage` handler on a successfully parsed frame: a `pong` frame
is consumed silently; any other frame is emitted as a `message` event. -/
def deliverMessage (d : JVal) (st : State) : State :=
  if typeStr d = some "pong" then st else emitEv st WEv.messageEv

/-- The `onerror` handler: reset `isConnecting`, clear the connection
timer, emit `error`.  It does not itself reconnect. -/
def deliverError (st : State) : State :=
  emitEv (clearConnectionTimer { st with isConnecting := false }) WEv.errorEv

/-- The connection-establishment timer fires: if the socket is still
CONNECTING, close it, emit `error` and invoke `reconnect`. -/
def connectionTimerFire (st : State) : State :=
  match st.ws with
  | some w =>
      if w.readyState = ReadyState.CONNECTING then
        let st1 := { st with ws := some { w with readyState := ReadyState.CLOSING } }
        reconnect (emitEv st1 WEv.errorEv)
      else st
  | none => st

/-- Frames the current socket has handed to the transport. -/
def sentOf (st : State) : List JVal :=
  match st.ws with
  | some w => w.sent
  | none => []

/-- One failed connection attempt, observed end to end: the in-flight
attempt's socket closes abnormally (code 1006), running `onclose` and
hence `reconnect`; then the scheduled backoff callback, if any, fires and
calls `connect()`.  A failure can only happen while an attempt is in
flight (`isConnecting`). -/
def failStep (st : State) : State :=
  if st.isConnecting then reconnectFire (deliverClose 1006 st) else st

/-- A run of `n` consecutive failed connection attempts. -/
def runFails : Nat → State → State
  | 0, st => st
  | n + 1, st => runFails n (failStep st)

/-- Number of `max_reconnect_reached` notifications emitted so far. -/
def countExhaust (st : State) : Nat :=
  st.emitted.count WEv.maxReconnectReached

end WsClient

namespace Realtime

open WsClient

/-- Event labels `RealtimeService.emit` is called with in the source. -/
inductive REv where
  | connectionChanged
  | agentUpdated
  | taskUpdated
  | systemStatusUpdated
  | performanceUpdated
  | heartbeatEv
  | errorEv
  deriving DecidableEq, BEq

/-- The discriminator values `RealtimeService.handleMessage` recognizes. -/
def recognizedTypes : List String :=
  ["agent_update", "task_update", "system_status", "performance_metrics", "heartbeat"]

/-- The events `RealtimeService.handleMessage` emits for an inbound frame
`d`: the `switch (data.type)` maps each recognized discriminator to one
typed emission, and its `default` branch only logs to the console — it
emits nothing. -/
def handleMessageEvents (d : JVal) : List REv :=
  match typeStr d with
  | some s =>
      if s = "agent_update" then [REv.agentUpdated]
      else if s = "task_update" then [REv.taskUpdated]
      else if s = "system_status" then [REv.systemStatusUpdated]
      else if s = "performance_metrics" then [REv.performanceUpdated]
      else if s = "heartbeat" then [REv.heartbeatEv]
      else []
  | none => []

/-- A subscriber callback, abstracted as an identifier together with
whether invoking it throws. -/
structure Cb where
  id : Nat
  throws : Bool
  deriving DecidableEq

/-- Invoking a callback either completes (`Except.ok`) or throws
(`Except.error`); either way the invocation carries the callback's id. -/
def invokeCb (cb : Cb) : Except Nat Nat :=
  if cb.throws then Except.error cb.id else Except.ok cb.id

/-- The `forEach` loop of `RealtimeService.emit`: each callback is invoked
inside `try ... catch`, so a throwing callback is recorded in the caught
log and the loop continues with the next callback.  Returns the ids
invoked, in order, and the ids whose invocation threw and was caught. -/
def emitRun : List Cb → List Nat × List Nat
  | [] => ([], [])
  | cb :: rest =>
      let tail := emitRun rest
      match invokeCb cb with
      | Except.ok i => (i :: tail.1, tail.2)
      | Except.error i => (i :: tail.1, i :: tail.2)

/-- Method `emit(event, data)`: look up the subscriber list registered for
`event` and run the guarded `forEach` over it. -/
def emitOn (subs : List (String × List Cb)) (ev : String) : List Nat × List Nat :=
  emitRun ((List.lookup ev subs).getD [])

/-- State of the `RealtimeService` singleton layered over its
`WebSocketClient`.  `reconnectTimer` is true while a `scheduleReconnect`
callback is pending; unlike the client's backoff timers, this handle is
retained and `RealtimeService.disconnect` can clear it. -/
structure RState where
  wc : WsClient.State
  rsConnected : Bool
  reconnectTimer : Bool
  rsEmitted : List REv

/-- Record an emission of the service. -/
def rsEmit (s : RState) (e : REv) : RState :=
  { s with rsEmitted := s.rsEmitted ++ [e] }

/-- The service's `disconnected` listener (registered in
`setupWebSocket`): set `isConnected` to false, emit `connection_changed`,
and call `scheduleReconnect`, which replaces any pending timer with a
fresh 5-second one.  It runs on every `disconnected` event, whatever the
closure code was. -/
def onWcDisconnected (s : RState) : RState :=
  let s1 := { s with rsConnected := false }
  let s2 := rsEmit s1 REv.connectionChanged
  { s2 with reconnectTimer := true }

/-- The service's `connected` listener: set `isConnected`, emit
`connection_changed`. -/
def onWcConnected (s : RState) : RState :=
  rsEmit { s with rsConnected := true } REv.connectionChanged

/-- Method `RealtimeService.connect()`: forward to the client unless the
service believes itself connected. -/
def rsConnect (s : RState) : RState :=
  if s.rsConnected = false then { s with wc := WsClient.connect s.wc } else s

/-- Method `RealtimeService.disconnect()`: clear the pending reconnect
timer, disconnect the client, reset the connected flag. -/
def rsDisconnect (s : RState) : RState :=
  let s1 := { s with reconnectTimer := false }
  { s1 with wc := WsClient.disconnect s1.wc, rsConnected := false }

/-- The `scheduleReconnect` callback fires: if the service still believes
itself disconnected, call `RealtimeService.connect()`. -/
def reconnectTimerFire (s : RState) : RState :=
  if s.reconnectTimer then
    let s1 := { s with reconnectTimer := false }
    if s1.rsConnected = false then rsConnect s1 else s1
  else s

/-- Delivery of a socket close event with code `code` to the composite
system: the client's `onclose` handler runs; its `emit('disconnected')`
synchronously invokes the service's `disconnected` listener, after which
the handler's closure-code check decides whether the client reconnects. -/
def compDeliverClose (code : Nat) (s : RState) : RState :=
  let s1 := { s with wc := closeHandlerPre s.wc }
  let s2 := onWcDisconnected s1
  if code ≠ 1000 then { s2 with wc := WsClient.reconnect s2.wc } else s2

end Realtime

namespace WsClient

/-- On an OPEN socket, the flush loop with fuel equal to the queue length
and succeeding transmissions hands exactly the truthy queued messages to
the transport, in queue order, and empties the queue; every other field
is untouched. -/
lemma flushMessageQueue_open_true (q : List JVal) : ∀ (sent : List JVal)
    (ra : Nat) (hb ct : Bool) (ic : Bool) (pr : Nat) (em : List WEv),
    flushMessageQueue true q.length
        ⟨some ⟨ReadyState.OPEN, sent⟩, ra, hb, ct, q, ic, pr, em⟩
      = some ⟨some ⟨ReadyState.OPEN, sent ++ q.filter jsTruthy⟩, ra, hb, ct, [], ic, pr, em⟩ := by
  induction q with
  | nil =>
      intro sent ra hb ct ic pr em
      simp [flushMessageQueue]
  | cons m rest ih =>
      intro sent ra hb ct ic pr em
      by_cases hm : jsTruthy m
      · simpa [flushMessageQueue, flushIter, send, isConnected, wsSendFrame, hm,
          List.filter_cons] using ih (sent ++ [m]) ra hb ct ic pr em
      · simpa [flushMessageQueue, flushIter, send, isConnected, wsSendFrame, hm,
          List.filter_cons] using ih sent ra hb ct ic pr em

/-- On an OPEN socket the flush loop terminates within `queue length`
iterations and empties the queue, whatever the transmission outcomes. -/
lemma flush_connected_aux (q : List JVal) : ∀ (ok : Bool) (sent : List JVal)
    (ra : Nat) (hb ct : Bool) (ic : Bool) (pr : Nat) (em : List WEv),
    ∃ st', flushMessageQueue ok q.length
        ⟨some ⟨ReadyState.OPEN, sent⟩, ra, hb, ct, q, ic, pr, em⟩ = some st'
      ∧ st'.messageQueue = [] := by
  induction q with
  | nil =>
      intro ok sent ra hb ct ic pr em
      refine ⟨⟨some ⟨ReadyState.OPEN, sent⟩, ra, hb, ct, [], ic, pr, em⟩, ?_, rfl⟩
      simp [flushMessageQueue]
  | cons m rest ih =>
      intro ok sent ra hb ct ic pr em
      by_cases hm : jsTruthy m
      · cases ok with
        | true =>
            simpa [flushMessageQueue, flushIter, send, isConnected, wsSendFrame, hm]
              using ih true (sent ++ [m]) ra hb ct ic pr em
        | false =>
            simpa [flushMessageQueue, flushIter, send, isConnected, emitEv, hm]
              using ih false sent ra hb ct ic pr (em ++ [WEv.errorEv])
      · simpa [flushMessageQueue, flushIter, hm]
          using ih ok sent ra hb ct ic pr em

/-- While the socket is not OPEN and the queue holds only truthy messages,
the flush loop never terminates: one iteration shifts the head off the
queue and `send` immediately re-appends it, so no amount of fuel reaches
an empty queue. -/
lemma flush_stuck (fuel : Nat) : ∀ (ok : Bool) (st : State),
    isConnected st = false → st.messageQueue ≠ [] →
    st.messageQueue.all jsTruthy = true →
    flushMessageQueue ok fuel st = none := by
  induction fuel with
  | zero =>
      intro ok st hc hne _
      simp [flushMessageQueue, List.isEmpty_iff, hne]
  | succ n ih =>
      intro ok st hc hne hall
      obtain ⟨ws, ra, hb, ct, mq, ic, pr, em⟩ := st
      cases mq with
      | nil => exact absurd rfl hne
      | cons m rest =>
          have hsplit : jsTruthy m = true ∧ rest.all jsTruthy = true := by
            simpa using hall
          cases ws with
          | none =>
              have hstep : flushMessageQueue ok (n + 1)
                    ⟨none, ra, hb, ct, m :: rest, ic, pr, em⟩
                  = flushMessageQueue ok n
                    ⟨none, ra, hb, ct, rest ++ [m], ic, pr, em⟩ := by
                simp [flushMessageQueue, flushIter, send, isConnected, hsplit.1]
              rw [hstep]
              exact ih ok _ (by simp [isConnected]) (by simp)
                (by simp [hsplit.1, hsplit.2])
          | some w =>
              have hw : ¬ (w.readyState = ReadyState.OPEN) := by
                simpa [isConnected] using hc
              have hstep : flushMessageQueue ok (n + 1)
                    ⟨some w, ra, hb, ct, m :: rest, ic, pr, em⟩
                  = flushMessageQueue ok n
                    ⟨some w, ra, hb, ct, rest ++ [m], ic, pr, em⟩ := by
                simp [flushMessageQueue, flushIter, send, isConnected, hsplit.1, hw]
              rw [hstep]
              exact ih ok _ (by simp [isConnected, hw]) (by simp)
                (by simp [hsplit.1, hsplit.2])

end WsClient

open WsClient Realtime

namespace WsClient

/-- Whatever branch `send` takes, it leaves the reconnect attempt counter
alone. -/
lemma send_preserves_attempts (st : State) (d : JVal) (ok : Bool) :
    ((send st d ok).1).reconnectAttempts = st.reconnectAttempts := by
  by_cases hc : isConnected st = true
  · cases ok <;> simp [send, hc, wsSendFrame, emitEv]
  · simp [send, hc]

/-- One flush iteration leaves the reconnect attempt counter alone. -/
lemma flushIter_preserves_attempts (ok : Bool) (st : State) :
    (flushIter ok st).reconnectAttempts = st.reconnectAttempts := by
  cases hq : st.messageQueue with
  | nil => simp [flushIter, hq]
  | cons m rest =>
      by_cases hm : jsTruthy m = true
      · simp [flushIter, hq, hm, send_preserves_attempts]
      · simp [flushIter, hq, hm]

/-- With no attempt in flight there is nothing to fail: `failStep` is the
identity. -/
lemma failStep_idle (st : State) (h : st.isConnecting = false) :
    failStep st = st := by
  simp [failStep, h]

/-- Runs of failures compose. -/
lemma runFails_add (a : Nat) : ∀ (b : Nat) (st : State),
    runFails (a + b) st = runFails b (runFails a st) := by
  induction a with
  | zero =>
      intro b st
      rw [Nat.zero_add]
      rfl
  | succ n ih =>
      intro b st
      rw [Nat.succ_add]
      have h1 : runFails (n + b + 1) st = runFails (n + b) (failStep st) := rfl
      rw [h1, ih b (failStep st)]
      rfl

/-- A state `failStep` fixes is fixed by any run of failures. -/
lemma runFails_fixed : ∀ (k : Nat) (st : State), failStep st = st →
    runFails k st = st := by
  intro k
  induction k with
  | zero =>
      intro st _
      rfl
  | succ n ih =>
      intro st h
      have h1 : runFails (n + 1) st = runFails n (failStep st) := rfl
      rw [h1, h]
      exact ih st h

/-- A terminating flush leaves the reconnect attempt counter alone. -/
lemma flush_preserves_attempts (fuel : Nat) : ∀ (ok : Bool) (st st' : State),
    flushMessageQueue ok fuel st = some st' →
    st'.reconnectAttempts = st.reconnectAttempts := by
  induction fuel with
  | zero =>
      intro ok st st' h
      by_cases he : st.messageQueue.isEmpty
      · simp [flushMessageQueue, he] at h
        rw [← h]
      · simp [flushMessageQueue, he] at h
  | succ n ih =>
      intro ok st st' h
      by_cases he : st.messageQueue.isEmpty
      · simp [flushMessageQueue, he] at h
        rw [← h]
      · have h' : flushMessageQueue ok n (flushIter ok st) = some st' := by
          simpa [flushMessageQueue, he] using h
        rw [ih ok (flushIter ok st) st' h', flushIter_preserves_attempts]

end WsClient

/-- C10: `flushMessageQueue` terminates and empties the queue for every
finite queue whenever the socket is OPEN throughout the flush (fuel equal
to the queue length suffices, whatever the transmission outcomes), and
the OPEN precondition is essential: when the socket is not OPEN, `send`
re-appends each shifted (truthy) message to the queue, the loop's measure
never decreases, and no amount of fuel terminates the loop. -/
theorem flush_terminates_iff_connected (ok : Bool) (st : WsClient.State) :
    (isConnected st = true →
      ∃ st', flushMessageQueue ok st.messageQueue.length st = some st'
        ∧ st'.messageQueue = [])
    ∧ (isConnected st = false → st.messageQueue ≠ [] →
      st.messageQueue.all jsTruthy = true →
      ∀ fuel, flushMessageQueue ok fuel st = none) := by
  constructor
  · intro hc
    obtain ⟨ws, ra, hb, ct, mq, ic, pr, em⟩ := st
    cases ws with
    | none => simp [isConnected] at hc
    | some w =>
        obtain ⟨rs, sentw⟩ := w
        have hw : rs = ReadyState.OPEN := by simpa [isConnected] using hc
        subst hw
        exact flush_connected_aux mq ok sentw ra hb ct ic pr em
  · intro hc hne hall fuel
    exact flush_stuck fuel ok st hc hne hall

/-- Witness for C10: a two-message queue on an OPEN socket flushes with
fuel 2, while a one-message truthy queue on a closed client exhausts any
fuel. -/
theorem flush_terminates_iff_connected_witness :
    (∃ st', flushMessageQueue true 2
        ⟨some ⟨ReadyState.OPEN, []⟩, 0, true, false,
          [JVal.jstr "a", JVal.jstr "b"], false, 0, []⟩ = some st'
      ∧ st'.messageQueue = [])
    ∧ flushMessageQueue true 7
        ⟨none, 0, false, false, [JVal.jstr "a"], false, 0, []⟩ = none := by
  constructor
  · exact (flush_terminates_iff_connected true
      ⟨some ⟨ReadyState.OPEN, []⟩, 0, true, false,
        [JVal.jstr "a", JVal.jstr "b"], false, 0, []⟩).1 rfl
  · exact (flush_terminates_iff_connected true
      ⟨none, 0, false, false, [JVal.jstr "a"], false, 0, []⟩).2 rfl (by simp) rfl 7

/-- C2 (counterexample): a falsy message — here `null` — submitted via
`send()` while disconnected is silently discarded by the `if (message)`
test of `flushMessageQueue` during the flush that follows the OPEN
transition: afterwards it is neither in the transport's sent frames nor
still queued, refuting the claim that every queued message is transmitted
exactly once with none dropped. -/
theorem queued_falsy_message_dropped :
    sentOf (deliverOpen (WsClient.connect ((send initState JVal.jnull true).1))) = []
    ∧ (deliverOpen (WsClient.connect
        ((send initState JVal.jnull true).1))).messageQueue = [] :=
  ⟨rfl, rfl⟩

/-- C2 (amended): every finite sequence of truthy messages submitted via
`send()` while the connection is not OPEN is handed to the transport
immediately after the next successful OPEN transition, in exactly FIFO
order of submission, each exactly once, and the queue is empty
afterwards; falsy queued values, however, are silently discarded during
the flush. -/
theorem open_flushes_truthy_fifo (q sentv : List JVal) (ra : Nat)
    (hb ct ic : Bool) (pr : Nat) (em : List WEv)
    (hq : q.all jsTruthy = true) :
    deliverOpen ⟨some ⟨ReadyState.CONNECTING, sentv⟩, ra, hb, ct, q, ic, pr, em⟩
      = ⟨some ⟨ReadyState.OPEN, sentv ++ q⟩, 0, true, false, [], false, pr,
          em ++ [WEv.connected]⟩ := by
  have hfilter : q.filter jsTruthy = q := by
    apply List.filter_eq_self.mpr
    intro a ha
    exact List.all_eq_true.mp hq a ha
  have hflush := flushMessageQueue_open_true q sentv 0 true false false pr em
  rw [hfilter] at hflush
  simp [deliverOpen, clearConnectionTimer, startHeartbeat, clearHeartbeat,
    emitEv, sockSetState, hflush]

/-- Witness for C2 (amended): two truthy string messages queued while
disconnected are both transmitted, in order, by the OPEN flush. -/
theorem open_flushes_truthy_fifo_witness :
    deliverOpen ⟨some ⟨ReadyState.CONNECTING, []⟩, 3, false, true,
        [JVal.jstr "a", JVal.jstr "b"], true, 0, []⟩
      = ⟨some ⟨ReadyState.OPEN, [JVal.jstr "a", JVal.jstr "b"]⟩, 0, true, false,
          [], false, 0, [WEv.connected]⟩ :=
  open_flushes_truthy_fifo [JVal.jstr "a", JVal.jstr "b"] [] 3 false true true 0 [] rfl

/-- C1 (counterexample): drive the client through connect, open, a first
heartbeat firing (a ping is sent), no pong ever arriving, and a second
heartbeat firing.  The claim says that second firing, taken from an
awaiting-ack state, force-closes the connection and begins a
reconnection; in fact the connection is still OPEN, no reconnect was
scheduled, the attempt counter is still 0, and the only effect is a
second ping on the wire. -/
theorem heartbeat_timer_step_claim_false :
    isConnected (heartbeatTick 1 true (heartbeatTick 0 true
        (deliverOpen (WsClient.connect initState)))) = true
    ∧ (heartbeatTick 1 true (heartbeatTick 0 true
        (deliverOpen (WsClient.connect initState)))).pendingReconnects = 0
    ∧ (heartbeatTick 1 true (heartbeatTick 0 true
        (deliverOpen (WsClient.connect initState)))).reconnectAttempts = 0
    ∧ sentOf (heartbeatTick 1 true (heartbeatTick 0 true
        (deliverOpen (WsClient.connect initState)))) = [pingFrame 0, pingFrame 1] :=
  ⟨rfl, rfl, rfl, rfl⟩

/-- C1 (amended): the heartbeat interval handler implements no liveness
detection: while the connection is OPEN it only sends another ping — the
connection stays open and neither a close nor a reconnection ever results
from a heartbeat firing, whether or not a pong was observed — while when
not OPEN it merely clears the interval; and `pong` frames are consumed by
`onmessage` without recording any acknowledgment state. -/
theorem heartbeat_tick_never_closes (st : WsClient.State) (now : Int) (ok : Bool) :
    (isConnected st = true →
      isConnected (heartbeatTick now ok st) = true
      ∧ (heartbeatTick now ok st).pendingReconnects = st.pendingReconnects
      ∧ (heartbeatTick now ok st).reconnectAttempts = st.reconnectAttempts)
    ∧ (isConnected st = false → heartbeatTick now ok st = clearHeartbeat st)
    ∧ (∀ d, typeStr d = some "pong" → deliverMessage d st = st) := by
  refine ⟨?_, ?_, ?_⟩
  · intro hc
    obtain ⟨ws, ra, hb, ct, mq, ic, pr, em⟩ := st
    cases ws with
    | none => simp [isConnected] at hc
    | some w =>
        obtain ⟨rs, sentw⟩ := w
        have hw : rs = ReadyState.OPEN := by simpa [isConnected] using hc
        subst hw
        cases ok <;>
          simp [heartbeatTick, send, isConnected, wsSendFrame, emitEv]
  · intro hc
    simp [heartbeatTick, hc]
  · intro d hd
    simp [deliverMessage, hd]

/-- Witness for C1 (amended): instantiated on an OPEN client, on the
fresh client, and on a literal pong frame. -/
theorem heartbeat_tick_never_closes_witness :
    (isConnected (heartbeatTick 0 true
        ⟨some ⟨ReadyState.OPEN, []⟩, 0, true, false, [], false, 0, []⟩) = true
      ∧ (heartbeatTick 0 true
        ⟨some ⟨ReadyState.OPEN, []⟩, 0, true, false, [], false, 0, []⟩).pendingReconnects = 0
      ∧ (heartbeatTick 0 true
        ⟨some ⟨ReadyState.OPEN, []⟩, 0, true, false, [], false, 0, []⟩).reconnectAttempts = 0)
    ∧ heartbeatTick 0 true initState = clearHeartbeat initState
    ∧ deliverMessage (JVal.jobj [("type", JVal.jstr "pong")]) initState = initState :=
  ⟨(heartbeat_tick_never_closes
      ⟨some ⟨ReadyState.OPEN, []⟩, 0, true, false, [], false, 0, []⟩ 0 true).1 rfl,
   (heartbeat_tick_never_closes initState 0 true).2.1 rfl,
   (heartbeat_tick_never_closes initState 0 true).2.2
      (JVal.jobj [("type", JVal.jstr "pong")]) rfl⟩

/-- C3 (counterexample): after exactly 10 consecutive failed connection
attempts — N equal to the maximum attempt count, so within the claim's
"N at least 10" — the client has emitted zero reconnection-exhausted
notifications, not exactly one, and an 11th connection attempt is already
in flight without `connect()` having been called again. -/
theorem exhaustion_claim_false_at_ten_failures :
    countExhaust (runFails 10 (WsClient.connect initState)) = 0
    ∧ (runFails 10 (WsClient.connect initState)).isConnecting = true :=
  ⟨rfl, rfl⟩

/-- C3 (amended): exhaustion takes maxReconnectAttempts + 1 = 11
consecutive failures (the initial attempt plus the 10 scheduled retries):
during the first 10 failures no exhaustion notification is emitted; on
the 11th, exactly one `max_reconnect_reached` is emitted, after which no
reconnect is pending, no attempt is in flight, further failure events
change nothing, and only an explicit `connect()` starts a new attempt. -/
theorem exhaustion_emitted_once_after_eleven_failures :
    ((List.range 11).all
      (fun n => countExhaust (runFails n (WsClient.connect initState)) == 0)) = true
    ∧ countExhaust (runFails 11 (WsClient.connect initState)) = 1
    ∧ (runFails 11 (WsClient.connect initState)).pendingReconnects = 0
    ∧ (runFails 11 (WsClient.connect initState)).isConnecting = false
    ∧ (∀ k, runFails (11 + k) (WsClient.connect initState)
        = runFails 11 (WsClient.connect initState))
    ∧ (WsClient.connect (runFails 11 (WsClient.connect initState))).isConnecting = true := by
  refine ⟨by decide, by decide, by decide, by decide, ?_, by decide⟩
  intro k
  rw [runFails_add]
  exact runFails_fixed k _ (failStep_idle _ (by decide))

/-- C4 (counterexample): after one failed attempt has scheduled a
reconnect-backoff callback, `disconnect()` leaves that callback pending
(its `setTimeout` handle was never retained), and when it later fires it
calls `connect()` and resurrects a connection attempt — refuting the
claim that `disconnect()` cancels any pending reconnect-backoff timer and
that no stale scheduled callback can resurrect a connection. -/
theorem stale_reconnect_survives_disconnect :
    (WsClient.disconnect (deliverClose 1006 (WsClient.connect initState))).pendingReconnects = 1
    ∧ (reconnectFire (WsClient.disconnect
        (deliverClose 1006 (WsClient.connect initState)))).isConnecting = true :=
  ⟨rfl, rfl⟩

/-- C4 (amended): `disconnect()` is idempotent — calling it twice equals
calling it once and nothing throws — and it cancels the
connection-establishment and heartbeat timers, closes and drops the
socket, clears the outbound queue and resets `isConnecting`; but it
leaves the count of pending reconnect-backoff callbacks unchanged, since
the source retains no handle to them. -/
theorem disconnect_idempotent_partial_cancel (st : WsClient.State) :
    WsClient.disconnect (WsClient.disconnect st) = WsClient.disconnect st
    ∧ (WsClient.disconnect st).connectionTimer = false
    ∧ (WsClient.disconnect st).heartbeatTimer = false
    ∧ (WsClient.disconnect st).messageQueue = []
    ∧ (WsClient.disconnect st).ws = none
    ∧ (WsClient.disconnect st).isConnecting = false
    ∧ (WsClient.disconnect st).pendingReconnects = st.pendingReconnects := by
  obtain ⟨ws, ra, hb, ct, mq, ic, pr, em⟩ := st
  cases ws <;>
    simp [WsClient.disconnect, clearConnectionTimer, clearHeartbeat]

/-- C9 (counterexample): with the attempt counter exhausted at its
maximum of 10, an explicit `connect()` call leaves the counter at 10, not
0, so the manual retry has no fresh attempt budget: if that attempt fails
too, the client immediately re-emits the exhaustion notification (now
twice in total) and schedules no retry at all. -/
theorem connect_reset_claim_false :
    (WsClient.connect (runFails 11 (WsClient.connect initState))).reconnectAttempts = 10
    ∧ ¬ (WsClient.connect (runFails 11 (WsClient.connect initState))).reconnectAttempts = 0
    ∧ countExhaust (failStep (WsClient.connect (runFails 11 (WsClient.connect initState)))) = 2
    ∧ (failStep (WsClient.connect
        (runFails 11 (WsClient.connect initState)))).pendingReconnects = 0 :=
  ⟨rfl, by decide, rfl, rfl⟩

/-- C9 (amended): the reconnection attempt counter is reset to 0 only by
a successful OPEN transition (the `onopen` handler), never by calling
`connect()`: `connect()` always leaves the counter unchanged, and
`deliverOpen` always zeroes it. -/
theorem attempts_reset_on_open_not_connect (st : WsClient.State) :
    (WsClient.connect st).reconnectAttempts = st.reconnectAttempts
    ∧ (deliverOpen st).reconnectAttempts = 0 := by
  constructor
  · by_cases h : (st.isConnecting || isConnected st) = true <;>
      simp [WsClient.connect, h]
  · obtain ⟨ws, ra, hb, ct, mq, ic, pr, em⟩ := st
    cases ws with
    | none =>
        cases hflush : flushMessageQueue true mq.length
            ⟨none, 0, true, false, mq, false, pr, em⟩ with
        | none =>
            simp [deliverOpen, clearConnectionTimer, startHeartbeat,
              clearHeartbeat, emitEv, hflush]
        | some s =>
            have hra := flush_preserves_attempts mq.length true _ s hflush
            simp [deliverOpen, clearConnectionTimer, startHeartbeat,
              clearHeartbeat, emitEv, hflush, hra]
    | some w =>
        cases hflush : flushMessageQueue true mq.length
            ⟨some (sockSetState ReadyState.OPEN w), 0, true, false, mq, false, pr, em⟩ with
        | none =>
            simp [deliverOpen, clearConnectionTimer, startHeartbeat,
              clearHeartbeat, emitEv, hflush]
        | some s =>
            have hra := flush_preserves_attempts mq.length true _ s hflush
            simp [deliverOpen, clearConnectionTimer, startHeartbeat,
              clearHeartbeat, emitEv, hflush, hra]

/-- C8 (counterexample): `send` returns `false` both when the message is
queued because the connection is not OPEN and when an OPEN transmission
throws; only a successful OPEN transmission returns `true`.  The queued
outcome is therefore not distinguishable from an error through the value
`send` returns, refuting the claim of a distinguishable "queued"
result. -/
theorem send_queued_equals_error_result :
    (send initState (JVal.jstr "m") true).2 = false
    ∧ (send ⟨some ⟨ReadyState.OPEN, []⟩, 0, true, false, [], false, 0, []⟩
        (JVal.jstr "m") false).2 = false
    ∧ (send ⟨some ⟨ReadyState.OPEN, []⟩, 0, true, false, [], false, 0, []⟩
        (JVal.jstr "m") true).2 = true :=
  ⟨rfl, rfl, rfl⟩

/-- C8 (amended): if the connection is OPEN and the transmission
succeeds, `send` transmits immediately and returns `true`; if it is OPEN
and the transmission throws, it emits `error` and returns `false`;
otherwise it appends the message to the outbound queue and returns
`false` — the same value as the error case, so queuing is signalled only
by the queue side effect, not by a return value distinguishable from an
error. -/
theorem send_result_characterization (st : WsClient.State) (d : JVal) :
    (∀ ok, isConnected st = false →
      send st d ok = ({ st with messageQueue := st.messageQueue ++ [d] }, false))
    ∧ (isConnected st = true → send st d true = (wsSendFrame st d, true))
    ∧ (isConnected st = true → send st d false = (emitEv st WEv.errorEv, false)) := by
  refine ⟨?_, ?_, ?_⟩
  · intro ok hc
    simp [send, hc]
  · intro hc
    simp [send, hc]
  · intro hc
    simp [send, hc]

/-- Witness for C8 (amended): the three branches at concrete states. -/
theorem send_result_characterization_witness :
    send initState (JVal.jstr "m") true
      = ({ initState with messageQueue := [JVal.jstr "m"] }, false)
    ∧ send ⟨some ⟨ReadyState.OPEN, []⟩, 0, true, false, [], false, 0, []⟩
        (JVal.jstr "m") true
      = (wsSendFrame ⟨some ⟨ReadyState.OPEN, []⟩, 0, true, false, [], false, 0, []⟩
          (JVal.jstr "m"), true)
    ∧ send ⟨some ⟨ReadyState.OPEN, []⟩, 0, true, false, [], false, 0, []⟩
        (JVal.jstr "m") false
      = (emitEv ⟨some ⟨ReadyState.OPEN, []⟩, 0, true, false, [], false, 0, []⟩
          WEv.errorEv, false) :=
  ⟨(send_result_characterization initState (JVal.jstr "m")).1 true rfl,
   (send_result_characterization
      ⟨some ⟨ReadyState.OPEN, []⟩, 0, true, false, [], false, 0, []⟩
      (JVal.jstr "m")).2.1 rfl,
   (send_result_characterization
      ⟨some ⟨ReadyState.OPEN, []⟩, 0, true, false, [], false, 0, []⟩
      (JVal.jstr "m")).2.2 rfl⟩

/-- C5 (counterexample): from a connected system, an explicit
`RealtimeService.disconnect()` followed by the delivery of the resulting
normal-closure (code 1000) close event leaves a service reconnect timer
scheduled, and when that timer fires the service performs `connect()` on
the client: a new connection attempt is in flight as a consequence of a
closure initiated by `disconnect()`. -/
theorem normal_close_triggers_reconnect_claim_false :
    (compDeliverClose 1000 (rsDisconnect
        ⟨⟨some ⟨ReadyState.OPEN, []⟩, 0, true, false, [], false, 0, [WEv.connected]⟩,
          true, false, [REv.connectionChanged]⟩)).reconnectTimer = true
    ∧ (reconnectTimerFire (compDeliverClose 1000 (rsDisconnect
        ⟨⟨some ⟨ReadyState.OPEN, []⟩, 0, true, false, [], false, 0, [WEv.connected]⟩,
          true, false, [REv.connectionChanged]⟩))).wc.isConnecting = true :=
  ⟨rfl, rfl⟩

/-- C5 (amended): the `WebSocketClient` itself never reconnects on a
normal closure — delivering a close with code 1000 leaves its attempt
counter and pending-reconnect count unchanged — but the
`RealtimeService` layered on top schedules its own reconnect on every
`disconnected` event regardless of the closure code, so after any
explicit `disconnect()` whose close event is delivered, the service's
timer fires and performs `connect()` on the client again. -/
theorem normal_close_reconnect_behavior (st : WsClient.State) (s : RState) :
    (deliverClose 1000 st).pendingReconnects = st.pendingReconnects
    ∧ (deliverClose 1000 st).reconnectAttempts = st.reconnectAttempts
    ∧ (compDeliverClose 1000 s).reconnectTimer = true
    ∧ (reconnectTimerFire (compDeliverClose 1000 (rsDisconnect s))).wc.isConnecting = true := by
  refine ⟨?_, ?_, ?_, ?_⟩
  · simp [deliverClose, closeHandlerPre, clearConnectionTimer, clearHeartbeat, emitEv]
  · simp [deliverClose, closeHandlerPre, clearConnectionTimer, clearHeartbeat, emitEv]
  · simp [compDeliverClose, onWcDisconnected, rsEmit]
  · obtain ⟨wc, rc, rt, rem⟩ := s
    obtain ⟨ws, ra, hb, ct, mq, ic, pr, em⟩ := wc
    cases ws <;>
      simp [reconnectTimerFire, compDeliverClose, rsDisconnect, rsConnect,
        onWcDisconnected, rsEmit, closeHandlerPre, WsClient.disconnect,
        WsClient.connect, clearConnectionTimer, clearHeartbeat, emitEv,
        isConnected]

/-- The guarded `forEach` of `RealtimeService.emit` invokes every callback
of the list, in order, whatever throws. -/
lemma emitRun_invokes_all (cbs : List Cb) :
    (emitRun cbs).1 = cbs.map Cb.id := by
  induction cbs with
  | nil => rfl
  | cons cb rest ih =>
      cases hth : cb.throws <;> simp [emitRun, invokeCb, hth, ih]

/-- C6: a dispatch by `RealtimeService.emit` invokes every subscriber
registered for the dispatched kind, in registration order, even when
callbacks throw: each invocation is wrapped in try/catch, so a throwing
subscriber is merely recorded in the caught-error log and neither
prevents later subscribers in the same dispatch from running nor
propagates out of the (total) dispatch function into the transport
client.  In particular a `task_update` frame is dispatched as one
`task_updated` emission, and with two subscribers registered for that
kind of which the first throws, both are invoked. -/
theorem subscriber_exception_isolated (cbs : List Cb)
    (subs : List (String × List Cb)) (ev : String) :
    (emitRun cbs).1 = cbs.map Cb.id
    ∧ (emitOn subs ev).1 = ((List.lookup ev subs).getD []).map Cb.id
    ∧ handleMessageEvents (JVal.jobj [("type", JVal.jstr "task_update")])
        = [REv.taskUpdated]
    ∧ emitOn [("task_updated", [⟨1, true⟩, ⟨2, false⟩])] "task_updated"
        = ([1, 2], [1]) :=
  ⟨emitRun_invokes_all cbs, emitRun_invokes_all _, by decide, by decide⟩

/-- C7 (counterexample): a well-formed frame whose discriminator value
`"drift"` is not a recognized kind reaches the `default` branch of
`handleMessage`, which only writes to the console: the dispatcher emits
nothing at all, so no subscriber-visible notification is produced and
there is no catch-all channel. -/
theorem unknown_type_claim_false :
    handleMessageEvents
      (JVal.jobj [("type", JVal.jstr "drift"), ("data", JVal.jobj [])]) = [] := by
  decide

/-- C7 (amended): every well-formed inbound frame whose discriminator is
not one of the five recognized kinds produces no dispatcher emission
whatsoever: it is silently dropped (only console-logged), not delivered
to any catch-all or "unknown" channel. -/
theorem unknown_type_not_dispatched (d : JVal)
    (h : ∀ s ∈ recognizedTypes, typeStr d ≠ some s) :
    handleMessageEvents d = [] := by
  cases ht : typeStr d with
  | none => simp [handleMessageEvents, ht]
  | some s =>
      have h1 : s ≠ "agent_update" := by
        intro he
        exact h "agent_update" (by simp [recognizedTypes]) (by rw [ht, he])
      have h2 : s ≠ "task_update" := by
        intro he
        exact h "task_update" (by simp [recognizedTypes]) (by rw [ht, he])
      have h3 : s ≠ "system_status" := by
        intro he
        exact h "system_status" (by simp [recognizedTypes]) (by rw [ht, he])
      have h4 : s ≠ "performance_metrics" := by
        intro he
        exact h "performance_metrics" (by simp [recognizedTypes]) (by rw [ht, he])
      have h5 : s ≠ "heartbeat" := by
        intro he
        exact h "heartbeat" (by simp [recognizedTypes]) (by rw [ht, he])
      simp [handleMessageEvents, ht, h1, h2, h3, h4, h5]

/-- Witness for C7 (amended): a frame of the unrecognized kind
`"mystery"` is dropped without any emission. -/
theorem unknown_type_not_dispatched_witness :
    handleMessageEvents (JVal.jobj [("type", JVal.jstr "mystery")]) = [] :=
  unknown_type_not_dispatched (JVal.jobj [("type", JVal.jstr "mystery")]) (by decide)
